import Mathlib

/-!
Shallow embedding of the agent orchestration engine of
`on-device-browser-agent` (src/background/agents/executor.ts,
src/background/agents/navigator-agent.ts), together with theorems that
settle the specification claims about it.

The constants `MAX_STEPS` and `MAX_REPLANS` live in `shared/constants.ts`
(whose values are not fixed by the sources at hand), so every definition is
parameterized by `maxSteps` / `maxReplans`.  The asynchronous collaborators
(model engine, planner/navigator model calls, DOM snapshot provider, action
provider, the `shouldCancel` flag set by `cancel()`, `Date.now()`) are
modelled as oracles indexed by the loop's step counter: each loop iteration
performs at most one call to each of them, so indexing by the step number
(and, for replans, by the number of earlier replans) is exact.
-/

namespace ODBA

-- ===========================================================================
-- Data model (shared/types.ts shapes used by the executor and navigator)
-- ===========================================================================

/-- `Action` of shared/types.ts: `{ action_type, parameters: Record<string,string> }`.
The parameter record is an insertion-ordered key/value list. -/
structure NavAction where
  thought : String
  action_type : String
  parameters : List (String × String)
  deriving Repr, DecidableEq

structure NavCurrentState where
  page_summary : String
  relevant_elements : List String
  progress : String
  deriving Repr, DecidableEq

/-- `NavigatorOutput`: the parsed structured reply of the Navigator. -/
structure NavigatorOutput where
  current_state : NavCurrentState
  action : NavAction
  deriving Repr, DecidableEq

structure ActionResult where
  success : Bool
  data : Option String
  error : Option String
  deriving Repr, DecidableEq

structure AgentStep where
  action : NavAction
  result : ActionResult
  timestamp : Nat
  deriving Repr, DecidableEq

structure PlanBody where
  thought : String
  steps : List String
  success_criteria : String
  deriving Repr, DecidableEq

structure PlannerCurrentState where
  analysis : String
  memory : List String
  deriving Repr, DecidableEq

/-- `PlannerOutput`: the parsed structured reply of the Planner; the executor
reads `plan.plan.steps`. -/
structure PlannerOutput where
  current_state : PlannerCurrentState
  plan : PlanBody
  deriving Repr, DecidableEq

structure AgentContext where
  task : String
  plan : Option PlannerOutput
  history : List AgentStep
  deriving Repr, DecidableEq

structure InteractiveElement where
  index : Nat
  tag : String
  type : Option String
  text : String
  selector : String
  attributes : List (String × String)
  deriving Repr, DecidableEq

structure DOMState where
  url : String
  title : String
  interactiveElements : List InteractiveElement
  pageText : String
  deriving Repr, DecidableEq

/-- `ExecutorEvent` of shared/types.ts as emitted by executor.ts. -/
inductive ExecutorEvent where
  | INIT_START
  | INIT_PROGRESS (progress : Nat)
  | INIT_COMPLETE
  | PLAN_START
  | PLAN_COMPLETE (plan : List String)
  | STEP_START (stepNumber : Nat)
  | STEP_ACTION (action : String) (params : List (String × String))
  | STEP_RESULT (success : Bool) (data : Option String)
  | REPLAN (reason : String)
  | TASK_COMPLETE (result : String)
  | TASK_FAILED (error : String)
  deriving Repr, DecidableEq

/-- How one `executeTask` call ends: resolving with a string or rejecting
with the message of the thrown `Error`. -/
inductive Outcome where
  | ok (result : String)
  | thrown (msg : String)
  deriving Repr, DecidableEq

/-- Ghost classification of why the step loop stopped (pure instrumentation;
it does not influence events, state or outcome). -/
inductive TermKind where
  | completed
  | cancelledK
  | budget
  | navErrorFatal
  | failFatal
  | replanThrew
  deriving Repr, DecidableEq

/-- The kinds the error-handling design calls immediately fatal inside the
loop: they emit `TASK_FAILED` and rethrow. -/
def TermKind.isFatal : TermKind → Bool
  | .budget => true
  | .navErrorFatal => true
  | .failFatal => true
  | _ => false

-- ===========================================================================
-- JS-semantics helpers
-- ===========================================================================

/-- JS `x || dflt` for a possibly-absent string `x`: the default is taken when
the property is missing or its value is the empty string (falsy). -/
def jsOr (v : Option String) (dflt : String) : String :=
  match v with
  | some s => if s = "" then dflt else s
  | none => dflt

/-- Property access `params.key` on a `Record<string,string>`. -/
def lookupParam (ps : List (String × String)) (k : String) : Option String :=
  (ps.find? (fun p => p.1 = k)).map (fun p => p.2)

/-- JS `s.slice(0, n)` on a string. -/
def strTake (s : String) (n : Nat) : String :=
  String.mk (s.data.take n)

/-- JS `l.slice(-n)` on an array: the last `min n l.length` entries. -/
def lastN (n : Nat) (l : List α) : List α :=
  l.drop (l.length - n)

-- ===========================================================================
-- Environment oracles for one executeTask call
-- ===========================================================================

/-- The collaborators of one `executeTask` call, indexed by step number
(each iteration makes at most one call to each provider) and, for
`planner.replan`, by the number of replans performed before the call.
`cancelFlag step` is the value of `shouldCancel` when the check at the top
of iteration `step` runs.  `Except.error m` models a rejected promise whose
`Error` carries message `m`. -/
structure ExecEnv where
  initResult : Except String Unit
  initProgress : List Nat
  planResult : Except String PlannerOutput
  domResult : Nat → Except String DOMState
  navResult : Nat → DOMState → Except String NavigatorOutput
  execResult : Nat → String → List (String × String) → Except String ActionResult
  replanResult : Nat → Except String PlannerOutput
  cancelFlag : Nat → Bool
  now : Nat → Nat

/-- The degraded snapshot substituted when `getDOMState` rejects
(executor.ts lines 112-124). -/
def placeholderDOM : DOMState :=
  { url := "unknown"
    title := "Error getting page state"
    interactiveElements := []
    pageText := "" }

/-- The DOM state the iteration works with: the provider's snapshot, or the
placeholder when the provider rejected. -/
def domOf (env : ExecEnv) (step : Nat) : DOMState :=
  match env.domResult step with
  | .ok d => d
  | .error _ => placeholderDOM

/-- The synthetic failed result built from a rejected `executeAction` call
(executor.ts lines 188-193). -/
def synthFail (m : String) : ActionResult :=
  { success := false, data := none, error := some m }

/-- The `ActionResult` recorded for an operational action at `step`:
the provider's result, or the synthetic failure if the provider rejected. -/
def execResultOf (env : ExecEnv) (step : Nat) (a : NavAction) : ActionResult :=
  match env.execResult step a.action_type a.parameters with
  | .ok r => r
  | .error m => synthFail m

-- ===========================================================================
-- One iteration of the Phase-3 step loop (executor.ts lines 103-231)
-- ===========================================================================

/-- Result of one loop iteration: events emitted during it, the context and
counters afterwards, whether `navigator.reset()` was called, and - when the
iteration left the loop - the outcome with its ghost kind. -/
structure StepRes where
  events : List ExecutorEvent
  ctx : AgentContext
  replans : Nat
  cf : Nat
  navReset : Bool
  halted : Option (Outcome × TermKind)
  deriving Repr, DecidableEq

/-- One iteration of the step loop with loop variable `step`, replan counter
`replans`, and consecutive-failure counter `cf`, translated branch by branch
from executor.ts lines 104-230. -/
def runStep (env : ExecEnv) (maxReplans step : Nat) (ctx : AgentContext)
    (replans cf : Nat) : StepRes :=
  if env.cancelFlag step then
    { events := [], ctx := ctx, replans := replans, cf := cf, navReset := false
      halted := some (.thrown "Task cancelled by user", .cancelledK) }
  else
    let startEv := ExecutorEvent.STEP_START (step + 1)
    match env.navResult step (domOf env step) with
    | .error errorMsg =>
      if replans < maxReplans then
        match env.replanResult replans with
        | .ok p =>
          { events := [startEv, .REPLAN ("Navigator error: " ++ errorMsg),
              .PLAN_COMPLETE p.plan.steps]
            ctx := { ctx with plan := some p }, replans := replans + 1, cf := cf
            navReset := true, halted := none }
        | .error m =>
          { events := [startEv, .REPLAN ("Navigator error: " ++ errorMsg)]
            ctx := ctx, replans := replans + 1, cf := cf, navReset := true
            halted := some (.thrown m, .replanThrew) }
      else
        { events := [startEv, .TASK_FAILED ("Navigator error: " ++ errorMsg)]
          ctx := ctx, replans := replans, cf := cf, navReset := false
          halted := some (.thrown errorMsg, .navErrorFatal) }
    | .ok navOut =>
      let action := navOut.action
      let actEv := ExecutorEvent.STEP_ACTION action.action_type action.parameters
      if action.action_type = "done" then
        let result := jsOr (lookupParam action.parameters "result")
          "Task completed successfully"
        { events := [startEv, actEv, .TASK_COMPLETE result]
          ctx := ctx, replans := replans, cf := cf, navReset := false
          halted := some (.ok result, .completed) }
      else if action.action_type = "fail" then
        let reason := jsOr (lookupParam action.parameters "reason") "Unknown failure"
        if replans < maxReplans then
          match env.replanResult replans with
          | .ok p =>
            { events := [startEv, actEv, .REPLAN reason, .PLAN_COMPLETE p.plan.steps]
              ctx := { ctx with plan := some p }, replans := replans + 1, cf := 0
              navReset := true, halted := none }
          | .error m =>
            { events := [startEv, actEv, .REPLAN reason]
              ctx := ctx, replans := replans + 1, cf := cf, navReset := true
              halted := some (.thrown m, .replanThrew) }
        else
          { events := [startEv, actEv, .TASK_FAILED reason]
            ctx := ctx, replans := replans, cf := cf, navReset := false
            halted := some (.thrown reason, .failFatal) }
      else
        let result := execResultOf env step action
        let resEv := ExecutorEvent.STEP_RESULT result.success result.data
        let entry : AgentStep :=
          { action := action, result := result, timestamp := env.now step }
        let ctx' := { ctx with history := ctx.history ++ [entry] }
        if result.success then
          { events := [startEv, actEv, resEv]
            ctx := ctx', replans := replans, cf := 0, navReset := false
            halted := none }
        else
          if 3 ≤ cf + 1 ∧ replans < maxReplans then
            match env.replanResult replans with
            | .ok p =>
              { events := [startEv, actEv, resEv,
                  .REPLAN (jsOr result.error "Multiple consecutive failures"),
                  .PLAN_COMPLETE p.plan.steps]
                ctx := { ctx' with plan := some p }, replans := replans + 1, cf := 0
                navReset := true, halted := none }
            | .error m =>
              { events := [startEv, actEv, resEv,
                  .REPLAN (jsOr result.error "Multiple consecutive failures")]
                ctx := ctx', replans := replans + 1, cf := cf + 1, navReset := true
                halted := some (.thrown m, .replanThrew) }
          else
            { events := [startEv, actEv, resEv]
              ctx := ctx', replans := replans, cf := cf + 1, navReset := false
              halted := none }

-- ===========================================================================
-- The whole step loop and executeTask
-- ===========================================================================

/-- The message of the step-budget-exhaustion error (executor.ts line 234). -/
def maxStepsMsg (n : Nat) : String :=
  "Maximum steps (" ++ toString n ++ ") exceeded without completing task"

/-- Aggregate result of running the step loop to termination: the emitted
events, the outcome with its ghost kind, the final context pieces and
counters, and per-iteration traces (`histLens` records `history.length` at
the top of each reached iteration, `cfTrace` the consecutive-failure
counter there). -/
structure LoopResult where
  events : List ExecutorEvent
  outcome : Outcome
  kind : TermKind
  finalHistory : List AgentStep
  finalPlan : Option PlannerOutput
  finalReplans : Nat
  finalCF : Nat
  histLens : List Nat
  cfTrace : List Nat
  deriving Repr, DecidableEq

/-- The `for (let step = 0; step < MAX_STEPS; step++)` loop, driven by the
remaining iteration budget (`remaining = maxSteps - step` at entry). -/
def stepLoop (env : ExecEnv) (maxSteps maxReplans : Nat) :
    Nat → Nat → AgentContext → Nat → Nat → LoopResult
  | 0, _step, ctx, replans, cf =>
    { events := [.TASK_FAILED (maxStepsMsg maxSteps)]
      outcome := .thrown (maxStepsMsg maxSteps), kind := .budget
      finalHistory := ctx.history, finalPlan := ctx.plan
      finalReplans := replans, finalCF := cf
      histLens := [ctx.history.length], cfTrace := [cf] }
  | remaining + 1, step, ctx, replans, cf =>
    let sr := runStep env maxReplans step ctx replans cf
    match sr.halted with
    | some (o, k) =>
      { events := sr.events, outcome := o, kind := k
        finalHistory := sr.ctx.history, finalPlan := sr.ctx.plan
        finalReplans := sr.replans, finalCF := sr.cf
        histLens := [ctx.history.length], cfTrace := [cf] }
    | none =>
      let rest := stepLoop env maxSteps maxReplans remaining (step + 1) sr.ctx sr.replans sr.cf
      { events := sr.events ++ rest.events, outcome := rest.outcome, kind := rest.kind
        finalHistory := rest.finalHistory, finalPlan := rest.finalPlan
        finalReplans := rest.finalReplans, finalCF := rest.finalCF
        histLens := ctx.history.length :: rest.histLens
        cfTrace := cf :: rest.cfTrace }

/-- The executor fields a call reads or writes before/after a task:
the single-flight guard and the context slot (`reset()` clears the agents
and the context on every exit path). -/
structure ExecutorState where
  isRunning : Bool
  context : Option AgentContext
  deriving Repr, DecidableEq

/-- What one `executeTask` call produces: the executor state after the call
returns/throws, all emitted events in order, the outcome, and (when the
step loop was entered) the loop's aggregate result. -/
structure ExecOut where
  state : ExecutorState
  events : List ExecutorEvent
  outcome : Outcome
  loopRes : Option LoopResult
  deriving Repr, DecidableEq

def alreadyRunningMsg : String := "Executor is already running a task"

/-- `Executor.executeTask` (executor.ts lines 50-241): the `isRunning` guard,
the model-initialization phase, the planning phase, the step loop, and the
`finally` teardown (isRunning cleared, context discarded). -/
def executeTask (env : ExecEnv) (maxSteps maxReplans : Nat)
    (s : ExecutorState) (task : String) : ExecOut :=
  if s.isRunning then
    { state := s, events := [], outcome := .thrown alreadyRunningMsg, loopRes := none }
  else
    let doneState : ExecutorState := { isRunning := false, context := none }
    let initEvs := ExecutorEvent.INIT_START ::
      env.initProgress.map ExecutorEvent.INIT_PROGRESS
    match env.initResult with
    | .error m =>
      { state := doneState
        events := initEvs ++ [.TASK_FAILED ("LLM initialization failed: " ++ m)]
        outcome := .thrown m, loopRes := none }
    | .ok _ =>
      let evs1 := initEvs ++ [.INIT_COMPLETE, .PLAN_START]
      match env.planResult with
      | .error m =>
        { state := doneState
          events := evs1 ++ [.TASK_FAILED ("Planning failed: " ++ m)]
          outcome := .thrown m, loopRes := none }
      | .ok plan0 =>
        let ctx0 : AgentContext := { task := task, plan := some plan0, history := [] }
        let r := stepLoop env maxSteps maxReplans maxSteps 0 ctx0 0 0
        { state := doneState
          events := evs1 ++ [.PLAN_COMPLETE plan0.plan.steps] ++ r.events
          outcome := r.outcome, loopRes := some r }

-- ===========================================================================
-- Event classifiers
-- ===========================================================================

def isTaskFailed : ExecutorEvent → Bool
  | .TASK_FAILED _ => true
  | _ => false

def isReplanEv : ExecutorEvent → Bool
  | .REPLAN _ => true
  | _ => false

def isStepStart : ExecutorEvent → Bool
  | .STEP_START _ => true
  | _ => false

-- ===========================================================================
-- NavigatorAgent.getNextAction prompt building (navigator-agent.ts 84-139)
-- ===========================================================================

/-- A character as `JSON.stringify` renders it inside a JSON string
(quote, backslash and the common control characters get a backslash
escape; everything else passes through). -/
def jsonEscapeChar (c : Char) : List Char :=
  if c = '\\' ∨ c = '"' then '\\' :: [c]
  else if c = '\n' then '\\' :: ['n']
  else if c = '\r' then '\\' :: ['r']
  else if c = '\t' then '\\' :: ['t']
  else [c]

def jsonEscape (s : String) : String :=
  String.mk (s.data.flatMap jsonEscapeChar)

/-- `JSON.stringify` of a `Record<string,string>`, keys in insertion order. -/
def jsonStringifyParams (ps : List (String × String)) : String :=
  "\x7b" ++
    String.intercalate ","
      (ps.map (fun p => "\"" ++ jsonEscape p.1 ++ "\":\"" ++ jsonEscape p.2 ++ "\"")) ++
  "\x7d"

/-- One line of the RECENT ACTIONS block (navigator-agent.ts 100-104);
`'FAILED: ' + undefined` renders as `"FAILED: undefined"` in JS. -/
def historyLine (h : AgentStep) : String :=
  "- " ++ h.action.action_type ++ "(" ++ jsonStringifyParams h.action.parameters ++
    ") -> " ++
    (if h.result.success then
      "OK" ++
        (match h.result.data with
          | some d => if d = "" then "" else ": " ++ strTake d 100
          | none => "")
    else
      "FAILED: " ++
        (match h.result.error with
          | some e => e
          | none => "undefined"))

/-- `historyStr` (navigator-agent.ts 94-106): the last 5 history entries
only, or a fixed notice when the history is empty. -/
def navHistoryStr (hist : List AgentStep) : String :=
  if 0 < hist.length then
    "RECENT ACTIONS:\n" ++ String.intercalate "\n" ((lastN 5 hist).map historyLine)
  else
    "No actions taken yet."

/-- `planStr` (navigator-agent.ts 86-91). -/
def navPlanStr (ctx : AgentContext) : String :=
  match ctx.plan with
  | some p =>
    "CURRENT PLAN:\n" ++
      String.intercalate "\n"
        ((p.plan.steps.enum).map (fun q => toString (q.1 + 1) ++ ". " ++ q.2)) ++
      "\n\nSuccess Criteria: " ++ p.plan.success_criteria
  | none => "No plan available - proceed based on the task."

/-- One line of the INTERACTIVE ELEMENTS block (navigator-agent.ts 111-116). -/
def elementLine (el : InteractiveElement) : String :=
  let attrs := String.intercalate " "
    (el.attributes.map (fun p => p.1 ++ "=\"" ++ strTake p.2 30 ++ "\""))
  "[" ++ toString el.index ++ "] <" ++ el.tag ++
    (match el.type with
      | some t => if t = "" then "" else " type=\"" ++ t ++ "\""
      | none => "") ++
    (if attrs = "" then "" else " " ++ attrs) ++
    "> \"" ++ strTake el.text 50 ++ "\" -> selector: " ++ el.selector

/-- `elementsStr` (navigator-agent.ts 109-117): the first
`MAX_INTERACTIVE_ELEMENTS` elements, one line each. -/
def navElementsStr (maxElems : Nat) (dom : DOMState) : String :=
  String.intercalate "\n" ((dom.interactiveElements.take maxElems).map elementLine)

/-- The page-text portion of the prompt (navigator-agent.ts 133): a
1500-character excerpt plus an ellipsis marker when text was cut. -/
def pageTextExcerpt (s : String) : String :=
  strTake s 1500 ++ (if 1500 < s.length then "..." else "")

/-- The full user prompt `NavigatorAgent.getNextAction` sends for one turn
(navigator-agent.ts 119-136), with `MAX_INTERACTIVE_ELEMENTS` as the
`maxElems` parameter. -/
def navigatorPrompt (maxElems : Nat) (ctx : AgentContext) (dom : DOMState) : String :=
  "TASK: " ++ ctx.task ++ "\n\n" ++ navPlanStr ctx ++ "\n\n" ++
    navHistoryStr ctx.history ++
    "\n\nCURRENT PAGE STATE:\nURL: " ++ dom.url ++ "\nTitle: " ++ dom.title ++
    "\n\nINTERACTIVE ELEMENTS (use these selectors):\n" ++
    (let es := navElementsStr maxElems dom
     if es = "" then "No interactive elements found on this page." else es) ++
    "\n\nPAGE TEXT (excerpt):\n" ++ pageTextExcerpt dom.pageText ++
    "\n\nBased on the current state, determine the next action to take to progress toward the goal.\nIf you have achieved the goal, use the \"done\" action with the result."

-- ===========================================================================
-- Helper lemmas about one loop iteration
-- ===========================================================================

/-- Expected number of `TASK_FAILED` emissions of an iteration, read off its
halt information. -/
def haltTFCount : Option (Outcome × TermKind) → Nat
  | some (_, k) => if k.isFatal then 1 else 0
  | none => 0

/-- A halt of fatal kind rejects with a thrown error. -/
def fatalThrown : Option (Outcome × TermKind) → Prop
  | some (o, k) => k.isFatal = true → ∃ m, o = Outcome.thrown m
  | none => True

theorem runStep_cancel (env : ExecEnv) (mr step : Nat) (ctx : AgentContext)
    (r cf : Nat) (hc : env.cancelFlag step = true) :
    runStep env mr step ctx r cf =
      { events := [], ctx := ctx, replans := r, cf := cf, navReset := false
        halted := some (.thrown "Task cancelled by user", .cancelledK) } := by
  simp [runStep, hc]

theorem runStep_ctx_hist (env : ExecEnv) (mr step : Nat) (ctx : AgentContext)
    (r cf : Nat) :
    (runStep env mr step ctx r cf).ctx.history.length ≤ ctx.history.length + 1 := by
  by_cases hc : env.cancelFlag step = true
  · simp [runStep, hc]
  · cases hnav : env.navResult step (domOf env step) with
    | error e =>
      by_cases hr : r < mr
      · cases hrp : env.replanResult r with
        | error m => simp [runStep, hc, hnav, hr, hrp]
        | ok p => simp [runStep, hc, hnav, hr, hrp]
      · simp [runStep, hc, hnav, hr]
    | ok nv =>
      by_cases hdone : nv.action.action_type = "done"
      · simp [runStep, hc, hnav, hdone]
      · by_cases hfail : nv.action.action_type = "fail"
        · by_cases hr : r < mr
          · cases hrp : env.replanResult r with
            | error m => simp [runStep, hc, hnav, hdone, hfail, hr, hrp]
            | ok p => simp [runStep, hc, hnav, hdone, hfail, hr, hrp]
          · simp [runStep, hc, hnav, hdone, hfail, hr]
        · cases hs : (execResultOf env step nv.action).success with
          | true => simp [runStep, hc, hnav, hdone, hfail, hs]
          | false =>
            by_cases hstreak : 2 ≤ cf ∧ r < mr
            · cases hrp : env.replanResult r with
              | error m => simp [runStep, hc, hnav, hdone, hfail, hs, hstreak, hrp]
              | ok p => simp [runStep, hc, hnav, hdone, hfail, hs, hstreak, hrp]
            · simp [runStep, hc, hnav, hdone, hfail, hs, hstreak]

theorem runStep_replans_le (env : ExecEnv) (mr step : Nat) (ctx : AgentContext)
    (r cf : Nat) (h : r ≤ mr) :
    (runStep env mr step ctx r cf).replans ≤ mr := by
  by_cases hc : env.cancelFlag step = true
  · simp [runStep, hc, h]
  · cases hnav : env.navResult step (domOf env step) with
    | error e =>
      by_cases hr : r < mr
      · cases hrp : env.replanResult r with
        | error m => simp [runStep, hc, hnav, hr, hrp]; omega
        | ok p => simp [runStep, hc, hnav, hr, hrp]; omega
      · simp [runStep, hc, hnav, hr, h]
    | ok nv =>
      by_cases hdone : nv.action.action_type = "done"
      · simp [runStep, hc, hnav, hdone, h]
      · by_cases hfail : nv.action.action_type = "fail"
        · by_cases hr : r < mr
          · cases hrp : env.replanResult r with
            | error m => simp [runStep, hc, hnav, hdone, hfail, hr, hrp]; omega
            | ok p => simp [runStep, hc, hnav, hdone, hfail, hr, hrp]; omega
          · simp [runStep, hc, hnav, hdone, hfail, hr, h]
        · cases hs : (execResultOf env step nv.action).success with
          | true => simp [runStep, hc, hnav, hdone, hfail, hs, h]
          | false =>
            by_cases hstreak : 2 ≤ cf ∧ r < mr
            · cases hrp : env.replanResult r with
              | error m => simp [runStep, hc, hnav, hdone, hfail, hs, hstreak, hrp]; omega
              | ok p => simp [runStep, hc, hnav, hdone, hfail, hs, hstreak, hrp]; omega
            · simp [runStep, hc, hnav, hdone, hfail, hs, hstreak, h]

theorem runStep_countTF (env : ExecEnv) (mr step : Nat) (ctx : AgentContext)
    (r cf : Nat) :
    ((runStep env mr step ctx r cf).events.countP isTaskFailed) =
      haltTFCount (runStep env mr step ctx r cf).halted := by
  by_cases hc : env.cancelFlag step = true
  · simp [runStep, hc, haltTFCount, TermKind.isFatal]
  · cases hnav : env.navResult step (domOf env step) with
    | error e =>
      by_cases hr : r < mr
      · cases hrp : env.replanResult r with
        | error m =>
          simp [runStep, hc, hnav, hr, hrp, haltTFCount, TermKind.isFatal,
            List.countP_cons, isTaskFailed]
        | ok p =>
          simp [runStep, hc, hnav, hr, hrp, haltTFCount, TermKind.isFatal,
            List.countP_cons, isTaskFailed]
      · simp [runStep, hc, hnav, hr, haltTFCount, TermKind.isFatal,
          List.countP_cons, isTaskFailed]
    | ok nv =>
      by_cases hdone : nv.action.action_type = "done"
      · simp [runStep, hc, hnav, hdone, haltTFCount, TermKind.isFatal,
          List.countP_cons, isTaskFailed]
      · by_cases hfail : nv.action.action_type = "fail"
        · by_cases hr : r < mr
          · cases hrp : env.replanResult r with
            | error m =>
              simp [runStep, hc, hnav, hdone, hfail, hr, hrp, haltTFCount,
                TermKind.isFatal, List.countP_cons, isTaskFailed]
            | ok p =>
              simp [runStep, hc, hnav, hdone, hfail, hr, hrp, haltTFCount,
                TermKind.isFatal, List.countP_cons, isTaskFailed]
          · simp [runStep, hc, hnav, hdone, hfail, hr, haltTFCount,
              TermKind.isFatal, List.countP_cons, isTaskFailed]
        · cases hs : (execResultOf env step nv.action).success with
          | true =>
            simp [runStep, hc, hnav, hdone, hfail, hs, haltTFCount,
              TermKind.isFatal, List.countP_cons, isTaskFailed]
          | false =>
            by_cases hstreak : 2 ≤ cf ∧ r < mr
            · cases hrp : env.replanResult r with
              | error m =>
                simp [runStep, hc, hnav, hdone, hfail, hs, hstreak, hrp,
                  haltTFCount, TermKind.isFatal, List.countP_cons, isTaskFailed]
              | ok p =>
                simp [runStep, hc, hnav, hdone, hfail, hs, hstreak, hrp,
                  haltTFCount, TermKind.isFatal, List.countP_cons, isTaskFailed]
            · simp [runStep, hc, hnav, hdone, hfail, hs, hstreak, haltTFCount,
                TermKind.isFatal, List.countP_cons, isTaskFailed]

theorem runStep_fatal_thrown (env : ExecEnv) (mr step : Nat) (ctx : AgentContext)
    (r cf : Nat) :
    fatalThrown (runStep env mr step ctx r cf).halted := by
  by_cases hc : env.cancelFlag step = true
  · simp [runStep, hc, fatalThrown, TermKind.isFatal]
  · cases hnav : env.navResult step (domOf env step) with
    | error e =>
      by_cases hr : r < mr
      · cases hrp : env.replanResult r with
        | error m => simp [runStep, hc, hnav, hr, hrp, fatalThrown, TermKind.isFatal]
        | ok p => simp [runStep, hc, hnav, hr, hrp, fatalThrown, TermKind.isFatal]
      · simp [runStep, hc, hnav, hr, fatalThrown, TermKind.isFatal]
    | ok nv =>
      by_cases hdone : nv.action.action_type = "done"
      · simp [runStep, hc, hnav, hdone, fatalThrown, TermKind.isFatal]
      · by_cases hfail : nv.action.action_type = "fail"
        · by_cases hr : r < mr
          · cases hrp : env.replanResult r with
            | error m =>
              simp [runStep, hc, hnav, hdone, hfail, hr, hrp, fatalThrown,
                TermKind.isFatal]
            | ok p =>
              simp [runStep, hc, hnav, hdone, hfail, hr, hrp, fatalThrown,
                TermKind.isFatal]
          · simp [runStep, hc, hnav, hdone, hfail, hr, fatalThrown, TermKind.isFatal]
        · cases hs : (execResultOf env step nv.action).success with
          | true => simp [runStep, hc, hnav, hdone, hfail, hs, fatalThrown, TermKind.isFatal]
          | false =>
            by_cases hstreak : 2 ≤ cf ∧ r < mr
            · cases hrp : env.replanResult r with
              | error m =>
                simp [runStep, hc, hnav, hdone, hfail, hs, hstreak, hrp,
                  fatalThrown, TermKind.isFatal]
              | ok p =>
                simp [runStep, hc, hnav, hdone, hfail, hs, hstreak, hrp,
                  fatalThrown, TermKind.isFatal]
            · simp [runStep, hc, hnav, hdone, hfail, hs, hstreak, fatalThrown,
                TermKind.isFatal]

theorem runStep_stepStart (env : ExecEnv) (mr step : Nat) (ctx : AgentContext)
    (r cf : Nat) (j : Nat)
    (hj : ExecutorEvent.STEP_START j ∈ (runStep env mr step ctx r cf).events) :
    j = step + 1 := by
  by_cases hc : env.cancelFlag step = true
  · simp [runStep, hc] at hj
  · cases hnav : env.navResult step (domOf env step) with
    | error e =>
      by_cases hr : r < mr
      · cases hrp : env.replanResult r with
        | error m => simp [runStep, hc, hnav, hr, hrp] at hj; try exact hj
        | ok p => simp [runStep, hc, hnav, hr, hrp] at hj; try exact hj
      · simp [runStep, hc, hnav, hr] at hj; try exact hj
    | ok nv =>
      by_cases hdone : nv.action.action_type = "done"
      · simp [runStep, hc, hnav, hdone] at hj; try exact hj
      · by_cases hfail : nv.action.action_type = "fail"
        · by_cases hr : r < mr
          · cases hrp : env.replanResult r with
            | error m => simp [runStep, hc, hnav, hdone, hfail, hr, hrp] at hj; try exact hj
            | ok p => simp [runStep, hc, hnav, hdone, hfail, hr, hrp] at hj; try exact hj
          · simp [runStep, hc, hnav, hdone, hfail, hr] at hj; try exact hj
        · cases hs : (execResultOf env step nv.action).success with
          | true => simp [runStep, hc, hnav, hdone, hfail, hs] at hj; try exact hj
          | false =>
            by_cases hstreak : 2 ≤ cf ∧ r < mr
            · cases hrp : env.replanResult r with
              | error m =>
                simp [runStep, hc, hnav, hdone, hfail, hs, hstreak, hrp] at hj
                try exact hj
              | ok p =>
                simp [runStep, hc, hnav, hdone, hfail, hs, hstreak, hrp] at hj
                try exact hj
            · simp [runStep, hc, hnav, hdone, hfail, hs, hstreak] at hj; try exact hj


theorem stepLoop_hist_bound (env : ExecEnv) (ms mr : Nat) :
    ∀ remaining step ctx r cf,
      (∀ l ∈ (stepLoop env ms mr remaining step ctx r cf).histLens,
          l ≤ ctx.history.length + remaining)
      ∧ (stepLoop env ms mr remaining step ctx r cf).finalHistory.length
          ≤ ctx.history.length + remaining := by
  intro remaining
  induction remaining with
  | zero =>
    intro step ctx r cf
    simp [stepLoop]
  | succ n ih =>
    intro step ctx r cf
    have hstep := runStep_ctx_hist env mr step ctx r cf
    cases hh : (runStep env mr step ctx r cf).halted with
    | some p =>
      obtain ⟨o, k⟩ := p
      constructor
      · intro l hl
        simp [stepLoop, hh] at hl
        omega
      · simp only [stepLoop, hh]
        omega
    | none =>
      have ihc := ih (step + 1) (runStep env mr step ctx r cf).ctx
        (runStep env mr step ctx r cf).replans (runStep env mr step ctx r cf).cf
      constructor
      · intro l hl
        simp [stepLoop, hh] at hl
        rcases hl with rfl | hl
        · omega
        · have := ihc.1 l hl
          omega
      · simp only [stepLoop, hh]
        have := ihc.2
        omega

theorem stepLoop_replans_le (env : ExecEnv) (ms mr : Nat) :
    ∀ remaining step ctx r cf, r ≤ mr →
      (stepLoop env ms mr remaining step ctx r cf).finalReplans ≤ mr := by
  intro remaining
  induction remaining with
  | zero => intro step ctx r cf h; simpa [stepLoop] using h
  | succ n ih =>
    intro step ctx r cf h
    have hs := runStep_replans_le env mr step ctx r cf h
    cases hh : (runStep env mr step ctx r cf).halted with
    | some p =>
      obtain ⟨o, k⟩ := p
      simpa [stepLoop, hh] using hs
    | none =>
      simp only [stepLoop, hh]
      exact ih (step + 1) _ _ _ hs

theorem stepLoop_countTF (env : ExecEnv) (ms mr : Nat) :
    ∀ remaining step ctx r cf,
      ((stepLoop env ms mr remaining step ctx r cf).events.countP isTaskFailed)
        = (if (stepLoop env ms mr remaining step ctx r cf).kind.isFatal then 1 else 0) := by
  intro remaining
  induction remaining with
  | zero =>
    intro step ctx r cf
    simp [stepLoop, List.countP_cons, isTaskFailed, TermKind.isFatal]
  | succ n ih =>
    intro step ctx r cf
    have hc := runStep_countTF env mr step ctx r cf
    cases hh : (runStep env mr step ctx r cf).halted with
    | some p =>
      obtain ⟨o, k⟩ := p
      rw [hh] at hc
      simp only [haltTFCount] at hc
      simp only [stepLoop, hh]
      exact hc
    | none =>
      rw [hh] at hc
      simp only [haltTFCount] at hc
      simp only [stepLoop, hh, List.countP_append]
      rw [hc, ih (step + 1)]
      simp

theorem stepLoop_fatal_thrown (env : ExecEnv) (ms mr : Nat) :
    ∀ remaining step ctx r cf,
      (stepLoop env ms mr remaining step ctx r cf).kind.isFatal = true →
      ∃ m, (stepLoop env ms mr remaining step ctx r cf).outcome = .thrown m := by
  intro remaining
  induction remaining with
  | zero =>
    intro step ctx r cf _
    simp [stepLoop]
  | succ n ih =>
    intro step ctx r cf hf
    have ht := runStep_fatal_thrown env mr step ctx r cf
    cases hh : (runStep env mr step ctx r cf).halted with
    | some p =>
      obtain ⟨o, k⟩ := p
      rw [hh] at ht
      simp only [fatalThrown] at ht
      simp only [stepLoop, hh] at hf ⊢
      exact ht hf
    | none =>
      simp only [stepLoop, hh] at hf ⊢
      exact ih (step + 1) _ _ _ hf

theorem stepLoop_cancel_no_stepStart (env : ExecEnv) (ms mr : Nat) :
    ∀ remaining step ctx r cf n, env.cancelFlag n = true →
      ExecutorEvent.STEP_START (n + 1) ∉ (stepLoop env ms mr remaining step ctx r cf).events := by
  intro remaining
  induction remaining with
  | zero =>
    intro step ctx r cf n _
    simp [stepLoop]
  | succ k ih =>
    intro step ctx r cf n hcan
    cases hh : (runStep env mr step ctx r cf).halted with
    | some p =>
      obtain ⟨o, kk⟩ := p
      simp only [stepLoop, hh]
      intro hmem
      have hidx := runStep_stepStart env mr step ctx r cf (n + 1) hmem
      have hns : n = step := by omega
      rw [hns] at hcan
      rw [runStep_cancel env mr step ctx r cf hcan] at hmem
      simp at hmem
    | none =>
      simp only [stepLoop, hh, List.mem_append]
      intro hmem
      rcases hmem with hmem | hmem
      · have hidx := runStep_stepStart env mr step ctx r cf (n + 1) hmem
        have hns : n = step := by omega
        rw [hns] at hcan
        rw [runStep_cancel env mr step ctx r cf hcan] at hmem
        simp at hmem
      · exact ih (step + 1) _ _ _ n hcan hmem

end ODBA

namespace ODBA

theorem countTF_map_progress (l : List Nat) :
    ((l.map ExecutorEvent.INIT_PROGRESS).countP isTaskFailed) = 0 := by
  rw [List.countP_map]
  exact List.countP_eq_zero.mpr (by intro a _; simp [Function.comp, isTaskFailed])

/-- C1: at every observable point of a task execution the history length is
bounded by the step budget: every iteration-entry length recorded in
`histLens` and the final history length are at most `maxSteps`. -/
theorem C1_history_never_exceeds_maxSteps
    (env : ExecEnv) (maxSteps maxReplans : Nat) (s : ExecutorState) (task : String)
    (lr : LoopResult)
    (h : (executeTask env maxSteps maxReplans s task).loopRes = some lr) :
    (∀ l ∈ lr.histLens, l ≤ maxSteps) ∧ lr.finalHistory.length ≤ maxSteps := by
  by_cases hrun : s.isRunning = true
  · simp [executeTask, hrun] at h
  · cases hinit : env.initResult with
    | error m => simp [executeTask, hrun, hinit] at h
    | ok u =>
      cases hplan : env.planResult with
      | error m => simp [executeTask, hrun, hinit, hplan] at h
      | ok p0 =>
        simp [executeTask, hrun, hinit, hplan] at h
        have hb := stepLoop_hist_bound env maxSteps maxReplans maxSteps 0
          { task := task, plan := some p0, history := [] } 0 0
        rw [← h]
        simpa using hb

end ODBA

namespace ODBA

/-- C2 (amended): replans never exceed the budget; with the budget
exhausted, a Navigator error or an explicit fail action terminates the task
as failure with the triggering reason (while an exhausted-budget failure
streak merely continues the loop, see the counterexample). -/
theorem C2_amended_replan_budget :
    (∀ (env : ExecEnv) (ms mr : Nat) (s : ExecutorState) (task : String)
        (lr : LoopResult),
        (executeTask env ms mr s task).loopRes = some lr →
        lr.finalReplans ≤ mr)
    ∧ (∀ (env : ExecEnv) (mr step : Nat) (ctx : AgentContext) (r cf : Nat)
        (e : String),
        env.cancelFlag step = false →
        env.navResult step (domOf env step) = .error e → mr ≤ r →
        runStep env mr step ctx r cf =
          { events := [.STEP_START (step + 1),
              .TASK_FAILED ("Navigator error: " ++ e)]
            ctx := ctx, replans := r, cf := cf, navReset := false
            halted := some (.thrown e, .navErrorFatal) })
    ∧ (∀ (env : ExecEnv) (mr step : Nat) (ctx : AgentContext) (r cf : Nat)
        (nv : NavigatorOutput),
        env.cancelFlag step = false →
        env.navResult step (domOf env step) = .ok nv →
        nv.action.action_type = "fail" → mr ≤ r →
        runStep env mr step ctx r cf =
          { events := [.STEP_START (step + 1),
              .STEP_ACTION "fail" nv.action.parameters,
              .TASK_FAILED (jsOr (lookupParam nv.action.parameters "reason")
                "Unknown failure")]
            ctx := ctx, replans := r, cf := cf, navReset := false
            halted := some (.thrown (jsOr (lookupParam nv.action.parameters "reason")
                "Unknown failure"), .failFatal) }) := by
  refine ⟨?_, ?_, ?_⟩
  · intro env ms mr s task lr h
    by_cases hrun : s.isRunning = true
    · simp [executeTask, hrun] at h
    · cases hinit : env.initResult with
      | error m => simp [executeTask, hrun, hinit] at h
      | ok u =>
        cases hplan : env.planResult with
        | error m => simp [executeTask, hrun, hinit, hplan] at h
        | ok p0 =>
          simp [executeTask, hrun, hinit, hplan] at h
          rw [← h]
          exact stepLoop_replans_le env ms mr ms 0 _ 0 0 (Nat.zero_le mr)
  · intro env mr step ctx r cf e hc hnav hr
    have hr' : ¬ r < mr := by omega
    simp [runStep, hc, hnav, hr']
  · intro env mr step ctx r cf nv hc hnav hfail hr
    have hr' : ¬ r < mr := by omega
    have hdone : ¬ nv.action.action_type = "done" := by simp [hfail]
    simp [runStep, hc, hnav, hfail, hdone, hr']

/-- C10: the `isRunning` guard makes a concurrent `executeTask` call throw
`AlreadyRunning` before any event is emitted, any provider is consulted, or
any executor state is mutated. -/
theorem C10_alreadyRunning_guard
    (env : ExecEnv) (ms mr : Nat) (s : ExecutorState) (task : String)
    (h : s.isRunning = true) :
    executeTask env ms mr s task =
      { state := s, events := [], outcome := .thrown alreadyRunningMsg
        loopRes := none } := by
  simp [executeTask, h]

/-- C7: if the cancellation flag is observed set at the top of iteration `n`
(0-based), the event `STEP_START (n+1)` is never emitted: the flag check
precedes the emission in every iteration. -/
theorem C7_cancel_stops_stepStart
    (env : ExecEnv) (ms mr : Nat) (s : ExecutorState) (task : String) (n : Nat)
    (h : env.cancelFlag n = true) :
    ExecutorEvent.STEP_START (n + 1) ∉ (executeTask env ms mr s task).events := by
  by_cases hrun : s.isRunning = true
  · simp [executeTask, hrun]
  · cases hinit : env.initResult with
    | error m =>
      simp [executeTask, hrun, hinit, List.mem_append, List.mem_map]
    | ok u =>
      cases hplan : env.planResult with
      | error m =>
        simp [executeTask, hrun, hinit, hplan, List.mem_append, List.mem_map]
      | ok p0 =>
        intro hmem
        simp [executeTask, hrun, hinit, hplan, List.mem_append, List.mem_map] at hmem
        exact stepLoop_cancel_no_stepStart env ms mr ms 0 _ 0 0 n h hmem

end ODBA

namespace ODBA

/-- C5 (amended): `ModelUnavailable`, planning failures, and the fatal loop
terminations (`BudgetExceeded`, replan-budget-exhausted Navigator errors and
fail actions) reject the caller and emit exactly one `TASK_FAILED`;
`AlreadyRunning`, by contrast, rejects before any event is emitted. -/
theorem C5_amended_fatal_emissions :
    (∀ (env : ExecEnv) (ms mr : Nat) (s : ExecutorState) (task : String),
        s.isRunning = true →
        (executeTask env ms mr s task).events = []
        ∧ (executeTask env ms mr s task).outcome = .thrown alreadyRunningMsg)
    ∧ (∀ (env : ExecEnv) (ms mr : Nat) (s : ExecutorState) (task : String)
        (m : String),
        s.isRunning = false → env.initResult = .error m →
        ((executeTask env ms mr s task).events.countP isTaskFailed = 1)
        ∧ (executeTask env ms mr s task).outcome = .thrown m)
    ∧ (∀ (env : ExecEnv) (ms mr : Nat) (s : ExecutorState) (task : String)
        (m : String),
        s.isRunning = false → env.initResult = .ok () → env.planResult = .error m →
        ((executeTask env ms mr s task).events.countP isTaskFailed = 1)
        ∧ (executeTask env ms mr s task).outcome = .thrown m)
    ∧ (∀ (env : ExecEnv) (ms mr : Nat) (s : ExecutorState) (task : String)
        (lr : LoopResult),
        (executeTask env ms mr s task).loopRes = some lr →
        lr.kind.isFatal = true →
        ((executeTask env ms mr s task).events.countP isTaskFailed = 1)
        ∧ ∃ m, (executeTask env ms mr s task).outcome = .thrown m) := by
  refine ⟨?_, ?_, ?_, ?_⟩
  · intro env ms mr s task hrun
    simp [executeTask, hrun]
  · intro env ms mr s task m hrun hinit
    constructor
    · simp [executeTask, hrun, hinit, List.countP_cons, List.countP_append,
        countTF_map_progress, isTaskFailed]
    · simp [executeTask, hrun, hinit]
  · intro env ms mr s task m hrun hinit hplan
    constructor
    · simp [executeTask, hrun, hinit, hplan, List.countP_cons, List.countP_append,
        countTF_map_progress, isTaskFailed]
    · simp [executeTask, hrun, hinit, hplan]
  · intro env ms mr s task lr h hf
    by_cases hrun : s.isRunning = true
    · simp [executeTask, hrun] at h
    · cases hinit : env.initResult with
      | error m => simp [executeTask, hrun, hinit] at h
      | ok u =>
        cases hplan : env.planResult with
        | error m => simp [executeTask, hrun, hinit, hplan] at h
        | ok p0 =>
          simp only [executeTask, hrun, hinit, hplan] at h ⊢
          simp at h
          constructor
          · have hcount := stepLoop_countTF env ms mr ms 0
              { task := task, plan := some p0, history := [] } 0 0
            rw [h] at hcount
            rw [hf] at hcount
            simp only [if_true] at hcount
            simp [Bool.not_eq_true, hrun, List.countP_cons, List.countP_append,
              countTF_map_progress, isTaskFailed, h, hcount]
          · have hth := stepLoop_fatal_thrown env ms mr ms 0
              { task := task, plan := some p0, history := [] } 0 0
            rw [h] at hth
            simp only [h]
            simp
            exact hth hf

end ODBA

namespace ODBA

/-- C3: when an operational action's recorded result is the third
consecutive failure and the replan budget remains, the iteration emits
exactly one `REPLAN`, resets the Navigator's transcript, replaces the plan
with the Planner's revision, and zeroes the failure counter; any successful
result also zeroes the counter. -/
theorem C3_failure_streak_replan :
    (∀ (env : ExecEnv) (mr step : Nat) (ctx : AgentContext) (r cf : Nat)
        (nv : NavigatorOutput) (p : PlannerOutput),
        env.cancelFlag step = false →
        env.navResult step (domOf env step) = .ok nv →
        nv.action.action_type ≠ "done" → nv.action.action_type ≠ "fail" →
        (execResultOf env step nv.action).success = false →
        2 ≤ cf → r < mr →
        env.replanResult r = .ok p →
        ((runStep env mr step ctx r cf).events.countP isReplanEv = 1)
        ∧ (runStep env mr step ctx r cf).navReset = true
        ∧ (runStep env mr step ctx r cf).ctx.plan = some p
        ∧ (runStep env mr step ctx r cf).cf = 0
        ∧ (runStep env mr step ctx r cf).replans = r + 1
        ∧ (runStep env mr step ctx r cf).halted = none)
    ∧ (∀ (env : ExecEnv) (mr step : Nat) (ctx : AgentContext) (r cf : Nat)
        (nv : NavigatorOutput),
        env.cancelFlag step = false →
        env.navResult step (domOf env step) = .ok nv →
        nv.action.action_type ≠ "done" → nv.action.action_type ≠ "fail" →
        (execResultOf env step nv.action).success = true →
        (runStep env mr step ctx r cf).cf = 0) := by
  constructor
  · intro env mr step ctx r cf nv p hc hnav hdone hfail hs hcf hr hrp
    have hstreak : 2 ≤ cf ∧ r < mr := ⟨hcf, hr⟩
    simp [runStep, hc, hnav, hdone, hfail, hs, hstreak, hrp,
      List.countP_cons, isReplanEv]
  · intro env mr step ctx r cf nv hc hnav hdone hfail hs
    simp [runStep, hc, hnav, hdone, hfail, hs]

/-- C6 (amended): the consecutive-failure counter is preserved across a
Navigator-error replan, but zeroed by a fail-action replan and by a
failure-streak replan. -/
theorem C6_amended_counter_reset_paths :
    (∀ (env : ExecEnv) (mr step : Nat) (ctx : AgentContext) (r cf : Nat)
        (e : String) (p : PlannerOutput),
        env.cancelFlag step = false →
        env.navResult step (domOf env step) = .error e →
        r < mr → env.replanResult r = .ok p →
        (runStep env mr step ctx r cf).cf = cf
        ∧ (runStep env mr step ctx r cf).halted = none)
    ∧ (∀ (env : ExecEnv) (mr step : Nat) (ctx : AgentContext) (r cf : Nat)
        (nv : NavigatorOutput) (p : PlannerOutput),
        env.cancelFlag step = false →
        env.navResult step (domOf env step) = .ok nv →
        nv.action.action_type = "fail" →
        r < mr → env.replanResult r = .ok p →
        (runStep env mr step ctx r cf).cf = 0
        ∧ (runStep env mr step ctx r cf).halted = none)
    ∧ (∀ (env : ExecEnv) (mr step : Nat) (ctx : AgentContext) (r cf : Nat)
        (nv : NavigatorOutput) (p : PlannerOutput),
        env.cancelFlag step = false →
        env.navResult step (domOf env step) = .ok nv →
        nv.action.action_type ≠ "done" → nv.action.action_type ≠ "fail" →
        (execResultOf env step nv.action).success = false →
        2 ≤ cf → r < mr → env.replanResult r = .ok p →
        (runStep env mr step ctx r cf).cf = 0) := by
  refine ⟨?_, ?_, ?_⟩
  · intro env mr step ctx r cf e p hc hnav hr hrp
    simp [runStep, hc, hnav, hr, hrp]
  · intro env mr step ctx r cf nv p hc hnav hfail hr hrp
    have hdone : ¬ nv.action.action_type = "done" := by simp [hfail]
    simp [runStep, hc, hnav, hfail, hdone, hr, hrp]
  · intro env mr step ctx r cf nv p hc hnav hdone hfail hs hcf hr hrp
    have hstreak : 2 ≤ cf ∧ r < mr := ⟨hcf, hr⟩
    simp [runStep, hc, hnav, hdone, hfail, hs, hstreak, hrp]

/-- C8: for an operational action, a rejected action-provider call is
converted into a synthetic failed `ActionResult` carrying the error
message, an `AgentStep` is appended to history unconditionally, and the
only way such an iteration can leave the loop is a Planner exception
during a streak replan - never the environment execution error itself. -/
theorem C8_operational_action_resilience
    (env : ExecEnv) (mr step : Nat) (ctx : AgentContext) (r cf : Nat)
    (nv : NavigatorOutput)
    (hc : env.cancelFlag step = false)
    (hnav : env.navResult step (domOf env step) = .ok nv)
    (hdone : nv.action.action_type ≠ "done")
    (hfail : nv.action.action_type ≠ "fail") :
    ((runStep env mr step ctx r cf).ctx.history
        = ctx.history ++
          [⟨nv.action, execResultOf env step nv.action, env.now step⟩])
    ∧ (∀ m, env.execResult step nv.action.action_type nv.action.parameters
          = .error m → execResultOf env step nv.action = synthFail m)
    ∧ (∀ o k, (runStep env mr step ctx r cf).halted = some (o, k) →
          k = TermKind.replanThrew) := by
  refine ⟨?_, ?_, ?_⟩
  · cases hs : (execResultOf env step nv.action).success with
    | true => simp [runStep, hc, hnav, hdone, hfail, hs]
    | false =>
      by_cases hstreak : 2 ≤ cf ∧ r < mr
      · cases hrp : env.replanResult r with
        | error m => simp [runStep, hc, hnav, hdone, hfail, hs, hstreak, hrp]
        | ok p => simp [runStep, hc, hnav, hdone, hfail, hs, hstreak, hrp]
      · simp [runStep, hc, hnav, hdone, hfail, hs, hstreak]
  · intro m hm
    simp [execResultOf, hm]
  · intro o k hk
    cases hs : (execResultOf env step nv.action).success with
    | true => simp [runStep, hc, hnav, hdone, hfail, hs] at hk
    | false =>
      by_cases hstreak : 2 ≤ cf ∧ r < mr
      · cases hrp : env.replanResult r with
        | error m =>
          simp [runStep, hc, hnav, hdone, hfail, hs, hstreak, hrp] at hk
          exact hk.2.symm
        | ok p => simp [runStep, hc, hnav, hdone, hfail, hs, hstreak, hrp] at hk
      · simp [runStep, hc, hnav, hdone, hfail, hs, hstreak] at hk

/-- C4 (amended): a `done` action terminates the iteration immediately as
success regardless of remaining step or replan budget, emitting
`TASK_COMPLETE` with the `result` parameter's value - or the default
placeholder text when that parameter is absent or empty - and appending
nothing to history. -/
theorem C4_amended_done_terminates
    (env : ExecEnv) (mr step : Nat) (ctx : AgentContext) (r cf : Nat)
    (nv : NavigatorOutput)
    (hc : env.cancelFlag step = false)
    (hnav : env.navResult step (domOf env step) = .ok nv)
    (hdone : nv.action.action_type = "done") :
    runStep env mr step ctx r cf =
      { events := [.STEP_START (step + 1), .STEP_ACTION "done" nv.action.parameters,
          .TASK_COMPLETE (jsOr (lookupParam nv.action.parameters "result")
            "Task completed successfully")]
        ctx := ctx, replans := r, cf := cf, navReset := false
        halted := some (.ok (jsOr (lookupParam nv.action.parameters "result")
          "Task completed successfully"), .completed) } := by
  simp [runStep, hc, hnav, hdone]

end ODBA

namespace ODBA

theorem str_data_append (a b : String) : (a ++ b).data = a.data ++ b.data := rfl

theorem lastN_length_le (n : Nat) (l : List α) : (lastN n l).length ≤ n := by
  simp [lastN, List.length_drop]
  omega

theorem lastN_lastN (n : Nat) (l : List α) : lastN n (lastN n l) = lastN n l := by
  have h := lastN_length_le n l
  have h0 : (lastN n l).length - n = 0 := by omega
  show (lastN n l).drop ((lastN n l).length - n) = lastN n l
  rw [h0]
  exact List.drop_zero _

theorem navHistoryStr_lastN (h : List AgentStep) :
    navHistoryStr (lastN 5 h) = navHistoryStr h := by
  unfold navHistoryStr
  by_cases hp : 0 < h.length
  · have hp' : 0 < (lastN 5 h).length := by
      simp [lastN, List.length_drop]
      omega
    simp [hp, hp', lastN_lastN]
  · have h0 : h = [] := List.length_eq_zero.mp (by omega)
    subst h0
    simp [lastN]

theorem elementLine_ne_empty (el : InteractiveElement) : elementLine el ≠ "" := by
  intro h
  have hd := congrArg String.data h
  simp [elementLine, str_data_append] at hd

/-- C9: the Navigator prompt depends only on the last 5 history entries
(older entries are omitted), embeds a page-text excerpt of at most 1500
characters, and - when the snapshot holds exactly one interactive element
and the element budget admits it - contains that element's rendered line. -/
theorem C9_navigator_prompt_truncation (maxElems : Nat) (ctx : AgentContext)
    (dom : DOMState) :
    (navigatorPrompt maxElems ctx dom
      = navigatorPrompt maxElems { ctx with history := lastN 5 ctx.history } dom)
    ∧ (strTake dom.pageText 1500).length ≤ 1500
    ∧ (∃ pre post, navigatorPrompt maxElems ctx dom
        = pre ++ strTake dom.pageText 1500 ++ post)
    ∧ (∀ el, dom.interactiveElements = [el] → 1 ≤ maxElems →
        ∃ pre post, navigatorPrompt maxElems ctx dom
          = pre ++ elementLine el ++ post) := by
  refine ⟨?_, ?_, ?_, ?_⟩
  · simp [navigatorPrompt, navHistoryStr_lastN, navPlanStr]
  · show (dom.pageText.data.take 1500).length ≤ 1500
    rw [List.length_take]
    exact Nat.min_le_left _ _
  · refine ⟨"TASK: " ++ ctx.task ++ "\n\n" ++ navPlanStr ctx ++ "\n\n" ++
      navHistoryStr ctx.history ++
      "\n\nCURRENT PAGE STATE:\nURL: " ++ dom.url ++ "\nTitle: " ++ dom.title ++
      "\n\nINTERACTIVE ELEMENTS (use these selectors):\n" ++
      (let es := navElementsStr maxElems dom
       if es = "" then "No interactive elements found on this page." else es) ++
      "\n\nPAGE TEXT (excerpt):\n",
      (if 1500 < dom.pageText.length then "..." else "") ++
      "\n\nBased on the current state, determine the next action to take to progress toward the goal.\nIf you have achieved the goal, use the \"done\" action with the result.", ?_⟩
    simp only [navigatorPrompt, pageTextExcerpt, String.append_assoc]
  · intro el hel hme
    have hes : navElementsStr maxElems dom = elementLine el := by
      cases maxElems with
      | zero => omega
      | succ m =>
        unfold navElementsStr
        rw [hel]
        simp only [List.take_succ_cons, List.take_nil, List.map_cons, List.map_nil]
        rfl
    have hne : elementLine el ≠ "" := elementLine_ne_empty el
    refine ⟨"TASK: " ++ ctx.task ++ "\n\n" ++ navPlanStr ctx ++ "\n\n" ++
      navHistoryStr ctx.history ++
      "\n\nCURRENT PAGE STATE:\nURL: " ++ dom.url ++ "\nTitle: " ++ dom.title ++
      "\n\nINTERACTIVE ELEMENTS (use these selectors):\n",
      "\n\nPAGE TEXT (excerpt):\n" ++ pageTextExcerpt dom.pageText ++
      "\n\nBased on the current state, determine the next action to take to progress toward the goal.\nIf you have achieved the goal, use the \"done\" action with the result.", ?_⟩
    simp only [navigatorPrompt, hes, if_neg hne, String.append_assoc]

end ODBA

namespace ODBA

-- ===========================================================================
-- Concrete fixtures for counterexamples and witnesses
-- ===========================================================================

def demoPlan : PlannerOutput :=
  { current_state := ⟨"analysis", ["fact"]⟩
    plan := ⟨"strategy", ["step one"], "criteria"⟩ }

def demoDOM : DOMState :=
  { url := "https://example.com", title := "Example"
    interactiveElements := [], pageText := "hello world" }

def clickOut : NavigatorOutput :=
  { current_state := ⟨"page", [], "working"⟩
    action := ⟨"try the button", "click", [("selector", "#btn")]⟩ }

def doneOut (r : String) : NavigatorOutput :=
  { current_state := ⟨"page", [], "done"⟩
    action := ⟨"finish", "done", [("result", r)]⟩ }

def failOut (reason : String) : NavigatorOutput :=
  { current_state := ⟨"page", [], "stuck"⟩
    action := ⟨"give up", "fail", [("reason", reason)]⟩ }

def demoCtx0 : AgentContext := { task := "t", plan := some demoPlan, history := [] }

def demoState0 : ExecutorState := { isRunning := false, context := none }

def demoStateBusy : ExecutorState := { isRunning := true, context := none }

/-- Run where every action fails and the Navigator keeps clicking until it
reports done at step 3. -/
def env1 : ExecEnv :=
  { initResult := .ok ()
    initProgress := []
    planResult := .ok demoPlan
    domResult := fun _ => .ok demoDOM
    navResult := fun step _ =>
      if step < 3 then .ok clickOut else .ok (doneOut "finished")
    execResult := fun _ _ _ => .error "boom"
    replanResult := fun _ => .ok demoPlan
    cancelFlag := fun _ => false
    now := fun _ => 0 }

def envNavErr : ExecEnv :=
  { env1 with navResult := fun _ _ => .error "model output malformed" }

def envFail0 : ExecEnv :=
  { env1 with navResult := fun _ _ => .ok (failOut "cannot proceed") }

def cx4Env : ExecEnv :=
  { env1 with navResult := fun _ _ => .ok (doneOut "") }

def cx6Env : ExecEnv :=
  { env1 with navResult := fun step _ =>
      if step < 2 then .ok clickOut
      else if step = 2 then .ok (failOut "cannot proceed")
      else .ok (doneOut "ok") }

def envDone : ExecEnv :=
  { env1 with navResult := fun _ _ => .ok (doneOut "found it") }

def envOkExec : ExecEnv :=
  { env1 with execResult := fun _ _ _ => .ok ⟨true, some "d", none⟩ }

def envCancel2 : ExecEnv :=
  { env1 with cancelFlag := fun n => decide (2 ≤ n) }

-- ===========================================================================
-- Counterexamples
-- ===========================================================================

/-- C2 counterexample: with `MAX_REPLANS = 0`, the failure streak reaching 3
at iteration 2 (visible in `cfTrace`) is a replan trigger with the budget
exhausted, yet the task neither replans nor terminates as failure there -
it continues and later succeeds. -/
theorem C2_counterexample :
    (stepLoop env1 5 0 5 0 demoCtx0 0 0).outcome = .ok "finished"
    ∧ (stepLoop env1 5 0 5 0 demoCtx0 0 0).cfTrace = [0, 1, 2, 3]
    ∧ (stepLoop env1 5 0 5 0 demoCtx0 0 0).events.countP isReplanEv = 0 := by
  decide

/-- C4 counterexample: a `done` action whose `result` parameter is present
but empty resolves with the default placeholder, not with the parameter's
value `""`. -/
theorem C4_counterexample :
    lookupParam (doneOut "").action.parameters "result" = some ""
    ∧ (stepLoop cx4Env 5 0 5 0 demoCtx0 0 0).outcome
        = .ok "Task completed successfully"
    ∧ ¬ (stepLoop cx4Env 5 0 5 0 demoCtx0 0 0).outcome = .ok "" := by
  decide

/-- C5 counterexample: the `AlreadyRunning` rejection emits no event at all,
so this fatal termination does not emit a `TASK_FAILED`. -/
theorem C5_counterexample :
    (executeTask env1 5 0 demoStateBusy "t").outcome = .thrown alreadyRunningMsg
    ∧ (executeTask env1 5 0 demoStateBusy "t").events.countP isTaskFailed = 0 := by
  decide

/-- C6 counterexample: a fail-action replan (the `REPLAN "cannot proceed"`
at iteration 2) zeroes the consecutive-failure counter from 2 to 0, which
the claim says happens only on the failure-streak path. -/
theorem C6_counterexample :
    (stepLoop cx6Env 5 1 5 0 demoCtx0 0 0).cfTrace = [0, 1, 2, 0]
    ∧ ExecutorEvent.REPLAN "cannot proceed" ∈ (stepLoop cx6Env 5 1 5 0 demoCtx0 0 0).events
    ∧ (stepLoop cx6Env 5 1 5 0 demoCtx0 0 0).events.countP isReplanEv = 1 := by
  decide

end ODBA

namespace ODBA

-- ===========================================================================
-- Witnesses
-- ===========================================================================

theorem C1_witness :
    (∀ l ∈ (stepLoop env1 5 0 5 0 demoCtx0 0 0).histLens, l ≤ 5)
    ∧ (stepLoop env1 5 0 5 0 demoCtx0 0 0).finalHistory.length ≤ 5 :=
  C1_history_never_exceeds_maxSteps env1 5 0 demoState0 "t"
    (stepLoop env1 5 0 5 0 demoCtx0 0 0) rfl

theorem C2_witness :
    ((stepLoop env1 5 0 5 0 demoCtx0 0 0).finalReplans ≤ 0)
    ∧ (runStep envNavErr 0 0 demoCtx0 0 0).halted
        = some (.thrown "model output malformed", .navErrorFatal)
    ∧ (runStep envFail0 0 0 demoCtx0 0 0).halted
        = some (.thrown "cannot proceed", .failFatal) := by
  refine ⟨?_, ?_, ?_⟩
  · exact C2_amended_replan_budget.1 env1 5 0 demoState0 "t"
      (stepLoop env1 5 0 5 0 demoCtx0 0 0) rfl
  · rw [C2_amended_replan_budget.2.1 envNavErr 0 0 demoCtx0 0 0
      "model output malformed" rfl rfl (Nat.le_refl 0)]
  · rw [C2_amended_replan_budget.2.2 envFail0 0 0 demoCtx0 0 0
      (failOut "cannot proceed") rfl rfl rfl (Nat.le_refl 0)]
    decide

theorem C3_witness :
    (((runStep cx6Env 1 0 demoCtx0 0 2).events.countP isReplanEv = 1)
      ∧ (runStep cx6Env 1 0 demoCtx0 0 2).navReset = true
      ∧ (runStep cx6Env 1 0 demoCtx0 0 2).ctx.plan = some demoPlan
      ∧ (runStep cx6Env 1 0 demoCtx0 0 2).cf = 0
      ∧ (runStep cx6Env 1 0 demoCtx0 0 2).replans = 0 + 1
      ∧ (runStep cx6Env 1 0 demoCtx0 0 2).halted = none)
    ∧ (runStep envOkExec 1 0 demoCtx0 0 2).cf = 0 := by
  constructor
  · exact C3_failure_streak_replan.1 cx6Env 1 0 demoCtx0 0 2 clickOut demoPlan
      rfl rfl (by decide) (by decide) rfl (by decide) (by decide) rfl
  · exact C3_failure_streak_replan.2 envOkExec 1 0 demoCtx0 0 2 clickOut
      rfl rfl (by decide) (by decide) rfl

theorem C4_witness :
    (runStep envDone 0 0 demoCtx0 0 0).halted
      = some (.ok "found it", .completed) := by
  rw [C4_amended_done_terminates envDone 0 0 demoCtx0 0 0 (doneOut "found it")
    rfl rfl rfl]
  decide

theorem C5_witness :
    ((executeTask env1 5 0 demoStateBusy "t").events = []
      ∧ (executeTask env1 5 0 demoStateBusy "t").outcome = .thrown alreadyRunningMsg)
    ∧ (((executeTask env1 3 0 demoState0 "t").events.countP isTaskFailed = 1)
      ∧ ∃ m, (executeTask env1 3 0 demoState0 "t").outcome = .thrown m) := by
  constructor
  · exact C5_amended_fatal_emissions.1 env1 5 0 demoStateBusy "t" rfl
  · exact C5_amended_fatal_emissions.2.2.2 env1 3 0 demoState0 "t"
      (stepLoop env1 3 0 3 0 demoCtx0 0 0) rfl (by decide)

theorem C6_witness :
    ((runStep envNavErr 1 0 demoCtx0 0 2).cf = 2
      ∧ (runStep envNavErr 1 0 demoCtx0 0 2).halted = none)
    ∧ ((runStep cx6Env 1 2 demoCtx0 0 2).cf = 0
      ∧ (runStep cx6Env 1 2 demoCtx0 0 2).halted = none)
    ∧ (runStep cx6Env 1 0 demoCtx0 0 2).cf = 0 := by
  refine ⟨?_, ?_, ?_⟩
  · exact C6_amended_counter_reset_paths.1 envNavErr 1 0 demoCtx0 0 2
      "model output malformed" demoPlan rfl rfl (by decide) rfl
  · exact C6_amended_counter_reset_paths.2.1 cx6Env 1 2 demoCtx0 0 2
      (failOut "cannot proceed") demoPlan rfl rfl rfl (by decide) rfl
  · exact C6_amended_counter_reset_paths.2.2 cx6Env 1 0 demoCtx0 0 2
      clickOut demoPlan rfl rfl (by decide) (by decide) rfl (by decide)
      (by decide) rfl

theorem C7_witness :
    ExecutorEvent.STEP_START 3 ∉ (executeTask envCancel2 5 0 demoState0 "t").events :=
  C7_cancel_stops_stepStart envCancel2 5 0 demoState0 "t" 2 rfl

theorem C8_witness :
    ((runStep cx6Env 1 0 demoCtx0 0 0).ctx.history
      = demoCtx0.history ++
        [⟨clickOut.action, execResultOf cx6Env 0 clickOut.action, cx6Env.now 0⟩])
    ∧ (∀ m, cx6Env.execResult 0 clickOut.action.action_type clickOut.action.parameters
          = .error m → execResultOf cx6Env 0 clickOut.action = synthFail m)
    ∧ (∀ o k, (runStep cx6Env 1 0 demoCtx0 0 0).halted = some (o, k) →
          k = TermKind.replanThrew) :=
  C8_operational_action_resilience cx6Env 1 0 demoCtx0 0 0 clickOut
    rfl rfl (by decide) (by decide)

def c9El : InteractiveElement :=
  { index := 0, tag := "button", type := some "submit", text := "Go"
    selector := "#go", attributes := [("id", "go")] }

def c9Text : String := String.mk (List.replicate 2000 'a')

def c9Dom : DOMState :=
  { url := "https://example.com", title := "Example"
    interactiveElements := [c9El], pageText := c9Text }

def c9Ctx : AgentContext :=
  { task := "find the word count of this page", plan := none, history := [] }

theorem C9_witness :
    (strTake c9Dom.pageText 1500).length ≤ 1500
    ∧ (∃ pre post, navigatorPrompt 20 c9Ctx c9Dom
        = pre ++ strTake c9Dom.pageText 1500 ++ post)
    ∧ (∃ pre post, navigatorPrompt 20 c9Ctx c9Dom
        = pre ++ elementLine c9El ++ post) := by
  have h := C9_navigator_prompt_truncation 20 c9Ctx c9Dom
  exact ⟨h.2.1, h.2.2.1, h.2.2.2 c9El rfl (by omega)⟩

theorem C10_witness :
    executeTask env1 5 0 demoStateBusy "t"
      = { state := demoStateBusy, events := [], outcome := .thrown alreadyRunningMsg
          loopRes := none } :=
  C10_alreadyRunning_guard env1 5 0 demoStateBusy "t" rfl

end ODBA
